import Mathlib

/-!
Verification of the transport_challenge controller
(`transport_challenge/transport_controller.py`) against its design
specification.

The file has two parts:

* An embedding of the Arm Action Controller (`pick_up`, `reset_arm`,
  `drop`, `drop_all` of class `Transport`).  The base `Magnebot` class is an
  external dependency; its primitives (`grasp`, `reset_arm`, `drop`,
  `drop_all`, `_do_arm_motion`, `_end_action`, `_get_initial_angles`) are
  modelled as oracles: a `MotionEnv` supplies the `ActionStatus` outcome of
  the k-th status-producing primitive call and the joint angles measured at a
  given instant.  The controller state tracks the held objects per arm, the
  container registry, the cached container arm angles, and a log of every
  request issued to the simulation host.

* An embedding of the Scene Population Engine
  (`Transport.get_scene_init_commands`), with Python's `random` calls
  modelled by a stream of naturals and `random.choice` on an empty sequence
  producing an `IndexError` fault, exactly as in CPython.
-/

/-- The two Magnebot arms (`magnebot.Arm`). -/
inductive Arm
  | left
  | right
deriving DecidableEq

/-- The action statuses relevant to the Transport controller
(`magnebot.ActionStatus`); the spec's closed enumeration. -/
inductive ActionStatus
  | success
  | cannotReach
  | failedToGrasp
  | failedToBend
deriving DecidableEq

/-- Requests issued by the controller to the external simulation host /
Magnebot base class.  Each constructor corresponds to one call site in
`transport_controller.py`. -/
inductive Event
  | graspReq (target : Nat) (arm : Arm)
  | baseResetReq (arm : Arm)
  | ikReplay (arm : Arm)
  | ikOrientation (arm : Arm) (objectId : Nat)
  | armMotion
  | endAction
  | baseDropReq (target : Nat) (arm : Arm)
  | baseDropAllReq
deriving DecidableEq

/-- Is an event an orientation-alignment request (`_start_ik_orientation`)? -/
def isOrient : Event → Bool
  | Event.ikOrientation _ _ => true
  | _ => false

/-- The controller-visible state: per-arm held objects (`self.state.held`),
the container registry (`self.containers`), the cached IK solutions
(`self._container_arm_angles`), a clock counting status-producing external
calls, and the log of issued requests. -/
structure BotState where
  held : Arm → List Nat
  containers : List Nat
  containerArmAngles : Arm → Option (List Int)
  clock : Nat
  events : List Event

/-- Oracle for the external Magnebot/simulation collaborator: `motion k` is
the `ActionStatus` returned by the k-th status-producing primitive call;
`initialAngles k` is the joint-angle reading `_get_initial_angles` would
report at instant `k`. -/
structure MotionEnv where
  motion : Nat → ActionStatus
  initialAngles : Nat → List Int

/-- Update an arm-indexed map at one arm. -/
def updArm {α : Type} (f : Arm → α) (a : Arm) (v : α) : Arm → α :=
  fun b => if b = a then v else f b

/-- Append one issued request to the log. -/
def emit (e : Event) (s : BotState) : BotState :=
  { s with events := s.events ++ [e] }

/-- Consume the next external status. -/
def nextStatus (env : MotionEnv) (s : BotState) : ActionStatus × BotState :=
  (env.motion s.clock, { s with clock := s.clock + 1 })

/-- Modelled from the spec: `Magnebot._end_action` finalizes the current
action (image capture etc.); it changes no held/cache state. -/
def end_action (s : BotState) : BotState :=
  emit Event.endAction s

/-- Modelled from the spec: `Magnebot._do_arm_motion` waits for the queued
arm motion to complete and reports its status. -/
def do_arm_motion (env : MotionEnv) (s : BotState) : ActionStatus × BotState :=
  nextStatus env (emit Event.armMotion s)

/-- Modelled from the spec: `Magnebot._get_initial_angles` reads the arm's
current joint angles (degrees); modelled as an oracle reading at the current
clock. -/
def get_initial_angles (env : MotionEnv) (s : BotState) : List Int × BotState :=
  (env.initialAngles s.clock, { s with clock := s.clock + 1 })

/-- Modelled from the spec: the base `Magnebot.grasp` primitive.  It issues a
grasp request and returns an `ActionStatus`; on `success` the target becomes
part of the arm's held set, on failure the held set is unchanged (spec §3:
`HeldState` is cleared on a failed grasp, kept on a successful one). -/
def base_grasp (env : MotionEnv) (target : Nat) (arm : Arm) (s : BotState) :
    ActionStatus × BotState :=
  let p := nextStatus env (emit (Event.graspReq target arm) s)
  if p.1 = ActionStatus.success then
    (p.1, { p.2 with held := updArm p.2.held arm (p.2.held arm ++ [target]) })
  else
    (p.1, p.2)

/-- Modelled from the spec: the base `Magnebot.reset_arm` primitive performs
the default arm-reset motion and reports its status; held sets are
unchanged. -/
def base_reset_arm (env : MotionEnv) (arm : Arm) (s : BotState) :
    ActionStatus × BotState :=
  nextStatus env (emit (Event.baseResetReq arm) s)

/-- Modelled from the spec: the base `Magnebot.drop` primitive; on `success`
the target leaves the arm's held set. -/
def base_drop (env : MotionEnv) (target : Nat) (arm : Arm) (s : BotState) :
    ActionStatus × BotState :=
  let p := nextStatus env (emit (Event.baseDropReq target arm) s)
  if p.1 = ActionStatus.success then
    (p.1, { p.2 with held := updArm p.2.held arm ((p.2.held arm).filter (fun o => o ≠ target)) })
  else
    (p.1, p.2)

/-- Modelled from the spec: the base `Magnebot.drop_all` primitive; all held
objects are released (spec §4.2: clears all `HeldState`) and a status is
reported. -/
def base_drop_all (env : MotionEnv) (s : BotState) : ActionStatus × BotState :=
  let p := nextStatus env (emit Event.baseDropAllReq s)
  (p.1, { p.2 with held := fun _ => [] })

namespace Transport

/-- `Transport.reset_arm` (transport_controller.py lines 84-125): if a cached
IK solution exists for the arm, replay it (`_append_ik_commands`, wait,
finalize); otherwise do the base reset and, if the arm holds a container
(membership in `self.containers`), issue an orientation-alignment request,
wait, finalize, and cache the measured arm angles before returning. -/
def reset_arm (env : MotionEnv) (arm : Arm) ( reset_torso : Bool) (s : BotState) :
    ActionStatus × BotState :=
  match s.containerArmAngles arm with
  | some _ =>
    let p := do_arm_motion env (emit (Event.ikReplay arm) s)
    (p.1, end_action p.2)
  | none =>
    let q := base_reset_arm env arm s
    match (q.2.held arm).find? (fun oid => q.2.containers.contains oid) with
    | some oid =>
      let p := do_arm_motion env (emit (Event.ikOrientation arm oid) q.2)
      let s4 := end_action p.2
      let a := get_initial_angles env s4
      (p.1, { a.2 with containerArmAngles := updArm a.2.containerArmAngles arm (some a.1) })
    | none => (q.1, q.2)

/-- `Transport.pick_up` (transport_controller.py lines 56-82): short-circuit
`success` if the target is already held by the arm; otherwise grasp, and on
grasp failure finalize and return the grasp status, on grasp success return
the result of `reset_arm`. -/
def pick_up (env : MotionEnv) (target : Nat) (arm : Arm) (s : BotState) :
    ActionStatus × BotState :=
  if target ∈ s.held arm then
    (ActionStatus.success, s)
  else
    let g := base_grasp env target arm s
    if g.1 = ActionStatus.success then
      reset_arm env arm true g.2
    else
      (g.1, end_action g.2)

/-- `Transport.drop` (transport_controller.py lines 127-133): delegate to the
base drop; on success remove any cached container arm angles for the arm. -/
def drop (env : MotionEnv) (target : Nat) (arm : Arm) (s : BotState) :
    ActionStatus × BotState :=
  let p := base_drop env target arm s
  if p.1 = ActionStatus.success then
    (p.1, { p.2 with containerArmAngles := updArm p.2.containerArmAngles arm none })
  else
    (p.1, p.2)

/-- `Transport.drop_all` (transport_controller.py lines 135-137): clear the
cached container arm angles unconditionally, then delegate to the base
drop-all. -/
def drop_all (env : MotionEnv) (s : BotState) : ActionStatus × BotState :=
  base_drop_all env { s with containerArmAngles := fun _ => none }

end Transport

/-! ## Scene Population Engine (`Transport.get_scene_init_commands`) -/

/-- A 3-component vector, used for positions (x, y, z) and rotation Euler
angles; coordinates are integers in the embedding (the real values are
floats, but only zero/nonzero structure and identities between components
are at stake). -/
structure Vec3 where
  x : Int
  y : Int
  z : Int
deriving DecidableEq, Inhabited

/-- A creation request emitted by `_add_object` for a target object or by
`_add_container` for a container: the position and rotation arguments. -/
structure Placement where
  position : Vec3
  rotation : Vec3
deriving DecidableEq, Inhabited

/-- The inputs of `get_scene_init_commands`: the room map and occupancy map
grids (same shape, row-major), the catalogs read from data files
(target-object names, visual materials, container names), the
`get_occupancy_position` conversion from grid cell to world (x, z), and the
random stream feeding every `random` call in source order. -/
structure PopInput where
  roomMap : List (List Int)
  occupancyMap : List (List Int)
  targetObjectNames : List String
  materials : List String
  containerNames : List String
  occPos : Nat → Nat → Int × Int
  rand : Nat → Nat

/-- Mutable state threaded through the population loops: the random-call
counter, the id generator standing for `_add_object`'s returned ids, and the
registries and emitted placements. -/
structure PopState where
  counter : Nat
  nextId : Nat
  targetObjects : List Nat
  containers : List Nat
  targetPlacements : List Placement
  containerPlacements : List Placement
deriving Inhabited

/-- Everything `get_scene_init_commands` produces that the claims mention:
the two id registries and the creation requests for targets and
containers. -/
structure PopResult where
  targetObjects : List Nat
  containers : List Nat
  targetPlacements : List Placement
  containerPlacements : List Placement
deriving DecidableEq, Inhabited

/-- Python `random.choice(xs)`: consumes one random value to index the
sequence; on an empty sequence CPython raises `IndexError` (modelled as an
`Except.error` fault). -/
def pyChoice {α : Type} (rand : Nat → Nat) (c : Nat) :
    List α → Except String (α × Nat)
  | [] => Except.error "IndexError: cannot choose from an empty sequence"
  | x :: xs =>
    Except.ok ((x :: xs).get ⟨rand c % (xs.length + 1), Nat.mod_lt _ (Nat.succ_pos _)⟩, c + 1)

/-- Python `random.uniform(-179, 179)`: one random draw, yielding a yaw in
the interval; modelled on integer degrees. -/
def pyYaw (rand : Nat → Nat) (c : Nat) : Int × Nat :=
  (Int.ofNat (rand c % 359) - 179, c + 1)

/-- Register one grid cell into the room partition, replicating the Python
dict building (transport_controller.py lines 161-167): a first-seen room id
is appended with an empty list; a free cell (occupancy 0) is appended to its
room's list. -/
def insertCell : List (Int × List (Nat × Nat)) → Int → Bool → Nat × Nat →
    List (Int × List (Nat × Nat))
  | [], ri, free, cell => [(ri, if free then [cell] else [])]
  | (r, cs) :: rest, ri, free, cell =>
    if r = ri then
      (r, if free then cs ++ [cell] else cs) :: rest
    else
      (r, cs) :: insertCell rest ri free cell

/-- Build the room → free-cells partition from the room map and occupancy
map, iterating cells in row-major (`np.ndindex`) order
(transport_controller.py lines 160-167). -/
def buildRooms (roomMap occupancyMap : List (List Int)) :
    List (Int × List (Nat × Nat)) :=
  (roomMap.zip occupancyMap).enum.foldl
    (fun rooms rowp =>
      (rowp.2.1.zip rowp.2.2).enum.foldl
        (fun rs cellp => insertCell rs cellp.2.1 (cellp.2.2 = 0) (rowp.1, cellp.1))
        rooms)
    []

/-- The target-object loop (transport_controller.py lines 172-196): for each
of `n` iterations, choose a random free cell of the chosen room, convert to
world coordinates, choose a random model name, emit a creation request with
rotation `{x: 0, y: uniform(-179,179), z: z}` (the z field receives the
world z coordinate, as in the source), record the id, then choose a random
visual material. -/
def placeTargets (inp : PopInput) (roomPositions : List (Nat × Nat)) :
    Nat → PopState → Except String PopState
  | 0, st => Except.ok st
  | Nat.succ k, st =>
    match pyChoice inp.rand st.counter roomPositions with
    | Except.error e => Except.error e
    | Except.ok (cell, c1) =>
      match pyChoice inp.rand c1 inp.targetObjectNames with
      | Except.error e => Except.error e
      | Except.ok (_, c2) =>
        match pyChoice inp.rand (pyYaw inp.rand c2).2 inp.materials with
        | Except.error e => Except.error e
        | Except.ok (_, c4) =>
          placeTargets inp roomPositions k
            { counter := c4
              nextId := st.nextId + 1
              targetObjects := st.targetObjects ++ [st.nextId]
              containers := st.containers
              targetPlacements := st.targetPlacements ++
                [{ position := ⟨(inp.occPos cell.1 cell.2).1, 0, (inp.occPos cell.1 cell.2).2⟩
                   rotation := ⟨0, (pyYaw inp.rand c2).1, (inp.occPos cell.1 cell.2).2⟩ }]
              containerPlacements := st.containerPlacements }

/-- The container loop (transport_controller.py lines 199-212): for each room
in the partition, with one random draw decide whether to skip the room
(`random.random() < 0.25`); otherwise choose a random free cell of the room,
choose a random container name, and emit a creation request with rotation
`{x: 0, y: uniform(-179,179), z: 0}`, recording the id. -/
def placeContainers (inp : PopInput) :
    List (Int × List (Nat × Nat)) → PopState → Except String PopState
  | [], st => Except.ok st
  | (_, cells) :: rest, st =>
    if inp.rand st.counter % 4 = 0 then
      placeContainers inp rest { st with counter := st.counter + 1 }
    else
      match pyChoice inp.rand (st.counter + 1) cells with
      | Except.error e => Except.error e
      | Except.ok (cell, c1) =>
        match pyChoice inp.rand c1 inp.containerNames with
        | Except.error e => Except.error e
        | Except.ok (_, c2) =>
          placeContainers inp rest
            { counter := (pyYaw inp.rand c2).2
              nextId := st.nextId + 1
              targetObjects := st.targetObjects
              containers := st.containers ++ [st.nextId]
              targetPlacements := st.targetPlacements
              containerPlacements := st.containerPlacements ++
                [{ position := ⟨(inp.occPos cell.1 cell.2).1, 0, (inp.occPos cell.1 cell.2).2⟩
                   rotation := ⟨0, (pyYaw inp.rand c2).1, 0⟩ }] }

/-- `Transport.get_scene_init_commands` (transport_controller.py lines
139-213), the spec's `populate()`: clear the registries, build the room
partition, choose one random room for all targets
(`random.choice(list(rooms.values()))`), draw the target count with
`random.randint(8, 12)`, run the target loop, then the per-room container
loop. -/
def populate (inp : PopInput) : Except String PopResult :=
  match pyChoice inp.rand 0 ((buildRooms inp.roomMap inp.occupancyMap).map (fun p => p.2)) with
  | Except.error e => Except.error e
  | Except.ok (roomPositions, c1) =>
    match placeTargets inp roomPositions (8 + inp.rand c1 % 5)
        { counter := c1 + 1, nextId := 0, targetObjects := [], containers := []
          targetPlacements := [], containerPlacements := [] } with
    | Except.error e => Except.error e
    | Except.ok st1 =>
      match placeContainers inp (buildRooms inp.roomMap inp.occupancyMap) st1 with
      | Except.error e => Except.error e
      | Except.ok st2 =>
        Except.ok { targetObjects := st2.targetObjects, containers := st2.containers
                    targetPlacements := st2.targetPlacements
                    containerPlacements := st2.containerPlacements }

/-- Did a population run complete without fault? -/
def popOk {ε α : Type} : Except ε α → Bool
  | Except.ok _ => true
  | Except.error _ => false

/-- The result of a completed population run (default on fault). -/
def popResult (e : Except String PopResult) : PopResult :=
  match e with
  | Except.ok r => r
  | Except.error _ => default

/-! ## Concrete scenarios used by counterexamples and witnesses -/

/-- A 1-by-2 scene whose room 1 has no free cell: cell (0,0) is free in room
0, cell (0,1) is occupied and is the only cell of room 1.  The random stream
picks room 0 for the targets and never takes the skip branch of the
container loop, so the container loop reaches room 1's empty free-cell
list. -/
def inpC1 : PopInput :=
  { roomMap := [[0, 1]]
    occupancyMap := [[0, 1]]
    targetObjectNames := ["vase"]
    materials := ["wood"]
    containerNames := ["basket"]
    occPos := fun _ _ => (3, 7)
    rand := fun c => if c = 0 then 0 else 1 }

/-- A 1-by-1 scene with a single free cell in room 0; every placement lands
at world coordinates (3, 7) and the run completes. -/
def inpC9 : PopInput :=
  { roomMap := [[0]]
    occupancyMap := [[0]]
    targetObjectNames := ["vase"]
    materials := ["wood"]
    containerNames := ["basket"]
    occPos := fun _ _ => (3, 7)
    rand := fun _ => 1 }

/-- The same 1-by-1 completing scene with an independent name, used to
witness the placement-count bounds. -/
def inpC8 : PopInput :=
  { roomMap := [[0]]
    occupancyMap := [[0]]
    targetObjectNames := ["vase"]
    materials := ["wood"]
    containerNames := ["basket"]
    occPos := fun _ _ => (2, 4)
    rand := fun _ => 1 }

/-- A controller state with arm `left` holding object 10, which is a
registered container, and no cached angles. -/
def sHoldCont : BotState :=
  { held := fun a => if a = Arm.left then [10] else []
    containers := [10]
    containerArmAngles := fun _ => none
    clock := 0
    events := [] }

/-- An idle controller state: nothing held, no containers, no cache. -/
def sIdle : BotState :=
  { held := fun _ => []
    containers := []
    containerArmAngles := fun _ => none
    clock := 0
    events := [] }

/-- An oracle whose first status-producing call succeeds and every later one
fails with `failed_to_bend`. -/
def envFailLater : MotionEnv :=
  { motion := fun k => if k = 0 then ActionStatus.success else ActionStatus.failedToBend
    initialAngles := fun _ => [45] }

/-- An oracle for which every motion succeeds. -/
def envAllOk : MotionEnv :=
  { motion := fun _ => ActionStatus.success
    initialAngles := fun _ => [30] }

/-- An oracle for which every motion reports `cannot_reach`. -/
def envAllCannotReach : MotionEnv :=
  { motion := fun _ => ActionStatus.cannotReach
    initialAngles := fun _ => [0] }

/-! ## Helper lemmas about the Arm Action Controller -/

/-- No controller reset path ever changes the held sets. -/
theorem resetArm_held (env : MotionEnv) (arm : Arm) (rt : Bool) (s : BotState) :
    (Transport.reset_arm env arm rt s).2.held = s.held := by
  unfold Transport.reset_arm
  cases hc : s.containerArmAngles arm with
  | some a =>
    simp [do_arm_motion, nextStatus, emit, end_action]
  | none =>
    simp only [do_arm_motion, nextStatus, emit, end_action, base_reset_arm,
      get_initial_angles]
    cases hf : (s.held arm).find? (fun oid => s.containers.contains oid) with
    | some oid => simp [hf]
    | none => simp [hf]

/-- The cached-angle replay path of `reset_arm`: when an IK solution is
cached for the arm, the only requests issued are the replay, the motion
wait, and the action finalization; the cache, the held sets and the
container registry are untouched, and the status is the motion oracle's
answer. -/
theorem resetArm_replay (env : MotionEnv) (arm : Arm) (rt : Bool) (s : BotState)
    (a : List Int) (h : s.containerArmAngles arm = some a) :
    (Transport.reset_arm env arm rt s).2.events =
      s.events ++ [Event.ikReplay arm, Event.armMotion, Event.endAction] ∧
    (Transport.reset_arm env arm rt s).2.containerArmAngles = s.containerArmAngles ∧
    (Transport.reset_arm env arm rt s).2.held = s.held ∧
    (Transport.reset_arm env arm rt s).1 = env.motion s.clock := by
  unfold Transport.reset_arm
  simp [h, do_arm_motion, nextStatus, emit, end_action]

/-- The first-container path of `reset_arm`: with no cached solution and a
container among the held objects, the status is the orientation motion's
status, the measured angles are cached for the arm unconditionally, and the
held sets are unchanged. -/
theorem resetArm_firstContainer (env : MotionEnv) (arm : Arm) (rt : Bool)
    (s : BotState) (oid : Nat)
    (h0 : s.containerArmAngles arm = none)
    (h1 : (s.held arm).find? (fun o => s.containers.contains o) = some oid) :
    (Transport.reset_arm env arm rt s).1 = env.motion (s.clock + 1) ∧
    (Transport.reset_arm env arm rt s).2.containerArmAngles arm =
      some (env.initialAngles (s.clock + 2)) ∧
    (Transport.reset_arm env arm rt s).2.held = s.held := by
  have h2 : (s.held arm).find? (fun o => decide (o ∈ s.containers)) = some oid := by
    simpa using h1
  unfold Transport.reset_arm
  simp [h0, h2, do_arm_motion, nextStatus, emit, end_action, base_reset_arm,
    get_initial_angles, updArm]

/-- A `pick_up` on an already-held target is a pure short-circuit: the state
is returned unchanged with `success` and no request is issued. -/
theorem pickUp_short (env : MotionEnv) (t : Nat) (arm : Arm) (s : BotState)
    (hm : t ∈ s.held arm) :
    Transport.pick_up env t arm s = (ActionStatus.success, s) := by
  unfold Transport.pick_up
  simp [hm]

/-- When the target is not yet held and the grasp succeeds, `pick_up` is
exactly `reset_arm` applied to the post-grasp state, and the post-grasp held
set gained the target. -/
theorem pickUp_graspSuccess (env : MotionEnv) (t : Nat) (arm : Arm) (s : BotState)
    (hm : t ∉ s.held arm) (hg : env.motion s.clock = ActionStatus.success) :
    Transport.pick_up env t arm s =
      Transport.reset_arm env arm true (base_grasp env t arm s).2 ∧
    (base_grasp env t arm s).2.held arm = s.held arm ++ [t] ∧
    (base_grasp env t arm s).2.containerArmAngles = s.containerArmAngles ∧
    (base_grasp env t arm s).2.events = s.events ++ [Event.graspReq t arm] := by
  refine ⟨?_, ?_, ?_, ?_⟩
  · unfold Transport.pick_up
    simp [hm, base_grasp, nextStatus, emit, hg]
  · simp [base_grasp, nextStatus, emit, hg, updArm]
  · simp [base_grasp, nextStatus, emit, hg]
  · simp [base_grasp, nextStatus, emit, hg]

/-- When the target is not yet held and the grasp fails, `pick_up` reports
the grasp status and only finalizes; the held sets and cache are exactly
those before the call. -/
theorem pickUp_graspFailure (env : MotionEnv) (t : Nat) (arm : Arm) (s : BotState)
    (hm : t ∉ s.held arm) (hg : ¬ env.motion s.clock = ActionStatus.success) :
    (Transport.pick_up env t arm s).1 = env.motion s.clock ∧
    (Transport.pick_up env t arm s).2.held = s.held ∧
    (Transport.pick_up env t arm s).2.containerArmAngles = s.containerArmAngles ∧
    (Transport.pick_up env t arm s).2.events =
      s.events ++ [Event.graspReq t arm, Event.endAction] := by
  unfold Transport.pick_up
  simp [hm, base_grasp, nextStatus, emit, end_action, hg]

/-- A successful `pick_up` leaves the target in the arm's held set. -/
theorem pickUp_success_held (env : MotionEnv) (t : Nat) (arm : Arm) (s : BotState)
    (h : (Transport.pick_up env t arm s).1 = ActionStatus.success) :
    t ∈ (Transport.pick_up env t arm s).2.held arm := by
  by_cases hm : t ∈ s.held arm
  · rw [pickUp_short env t arm s hm]
    exact hm
  · by_cases hg : env.motion s.clock = ActionStatus.success
    · obtain ⟨he, hh, _, _⟩ := pickUp_graspSuccess env t arm s hm hg
      rw [he, resetArm_held, hh]
      simp
    · obtain ⟨he, _, _, _⟩ := pickUp_graspFailure env t arm s hm hg
      rw [he] at h
      exact absurd h hg

/-- Any `pick_up` whose cache already has an entry for the arm issues no
orientation-alignment request: the new events are at most a grasp request
followed by either the cached replay or the finalization. -/
theorem pickUp_noOrient (env : MotionEnv) (t : Nat) (arm : Arm) (s : BotState)
    (h : (s.containerArmAngles arm).isSome = true) :
    ((Transport.pick_up env t arm s).2.events.drop s.events.length).all
      (fun e => !isOrient e) = true := by
  obtain ⟨a, ha⟩ := Option.isSome_iff_exists.mp h
  by_cases hm : t ∈ s.held arm
  · rw [pickUp_short env t arm s hm]
    simp [List.drop_length]
  · by_cases hg : env.motion s.clock = ActionStatus.success
    · obtain ⟨he, _, hc, hev⟩ := pickUp_graspSuccess env t arm s hm hg
      have hc2 : (base_grasp env t arm s).2.containerArmAngles arm = some a := by
        rw [hc]; exact ha
      have hr := resetArm_replay env arm true (base_grasp env t arm s).2 a hc2
      rw [he, hr.1, hev, List.append_assoc, List.drop_left]
      simp [isOrient]
    · obtain ⟨_, _, _, hev⟩ := pickUp_graspFailure env t arm s hm hg
      rw [hev, List.drop_left]
      simp [isOrient]

/-! ## Claim theorems for the Arm Action Controller -/

/-- C10: `drop_all` clears the cached container arm angles for every arm
before delegating to the base release-all primitive, so the cache is empty
after the call regardless of the status the primitive reports. -/
theorem drop_all_unconditional_cache_clear (env : MotionEnv) (s : BotState) :
    (Transport.drop_all env s).2.containerArmAngles Arm.left = none ∧
    (Transport.drop_all env s).2.containerArmAngles Arm.right = none := by
  unfold Transport.drop_all
  simp [base_drop_all, nextStatus, emit]

/-- C6: a successful `drop` removes any cached IK entry for the arm, and
`drop_all` leaves the cache empty for both arms; the cache is invalidated
synchronously with release. -/
theorem drop_success_invalidates_cache (env : MotionEnv) (s : BotState)
    (t : Nat) (arm : Arm)
    (h : (Transport.drop env t arm s).1 = ActionStatus.success) :
    (Transport.drop env t arm s).2.containerArmAngles arm = none ∧
    (Transport.drop_all env s).2.containerArmAngles Arm.left = none ∧
    (Transport.drop_all env s).2.containerArmAngles Arm.right = none := by
  refine ⟨?_, ?_, ?_⟩
  · unfold Transport.drop at h ⊢
    by_cases hd : (base_drop env t arm s).1 = ActionStatus.success
    · simp [hd, updArm]
    · simp [hd] at h
  · unfold Transport.drop_all
    simp [base_drop_all, nextStatus, emit]
  · unfold Transport.drop_all
    simp [base_drop_all, nextStatus, emit]

/-- C4: when the grasp attempt of `pick_up` fails with `cannot_reach` or
`failed_to_grasp`, `pick_up` returns that failure code unchanged and the
held sets are exactly what they were before the call. -/
theorem pick_up_grasp_failure (env : MotionEnv) (t : Nat) (arm : Arm) (s : BotState)
    (h1 : t ∉ s.held arm)
    (h2 : env.motion s.clock = ActionStatus.cannotReach ∨
          env.motion s.clock = ActionStatus.failedToGrasp) :
    (Transport.pick_up env t arm s).1 = env.motion s.clock ∧
    (Transport.pick_up env t arm s).2.held = s.held := by
  have hg : ¬ env.motion s.clock = ActionStatus.success := by
    rcases h2 with h | h <;> simp [h]
  unfold Transport.pick_up
  simp [h1, base_grasp, nextStatus, emit, end_action, hg]

/-- C7: `pick_up` is idempotent for a held object: an already-held target
returns `success` with the state untouched, so after any successful
`pick_up` the same call again yields `success` and changes nothing. -/
theorem pick_up_idempotent (env : MotionEnv) (t : Nat) (arm : Arm) (s : BotState)
    (h : (Transport.pick_up env t arm s).1 = ActionStatus.success) :
    t ∈ (Transport.pick_up env t arm s).2.held arm ∧
    Transport.pick_up env t arm (Transport.pick_up env t arm s).2 =
      (ActionStatus.success, (Transport.pick_up env t arm s).2) := by
  have hm := pickUp_success_held env t arm s h
  exact ⟨hm, pickUp_short env t arm (Transport.pick_up env t arm s).2 hm⟩

/-- C3 counterexample: with a grasp that succeeds and a base reset that then
fails, `pick_up` returns `failed_to_bend` (non-success) yet the arm's held
set changed from empty to holding the target: a non-success `pick_up` does
not leave `HeldState[arm]` unchanged. -/
theorem pick_up_partial_commit_cex :
    (Transport.pick_up envFailLater 5 Arm.left sIdle).1 = ActionStatus.failedToBend ∧
    sIdle.held Arm.left = [] ∧
    (Transport.pick_up envFailLater 5 Arm.left sIdle).2.held Arm.left = [5] := by
  decide

/-- C3 (amended): on grasp success `pick_up` returns exactly the result of
`reset_arm`; the target joins the arm's held set at the moment the grasp
succeeds and stays there even if the subsequent reset fails, so only a grasp
failure leaves the held state unchanged. -/
theorem pick_up_returns_reset_result (env : MotionEnv) (t : Nat) (arm : Arm)
    (s : BotState)
    (h1 : t ∉ s.held arm) (h2 : env.motion s.clock = ActionStatus.success) :
    Transport.pick_up env t arm s =
      Transport.reset_arm env arm true (base_grasp env t arm s).2 ∧
    (base_grasp env t arm s).2.held arm = s.held arm ++ [t] ∧
    t ∈ (Transport.pick_up env t arm s).2.held arm := by
  obtain ⟨he, hh, _, _⟩ := pickUp_graspSuccess env t arm s h1 h2
  refine ⟨he, hh, ?_⟩
  rw [he, resetArm_held, hh]
  simp

/-- C2 counterexample: arm `left` holds container 10 with an empty cache;
the base reset succeeds but the orientation-alignment motion fails with
`failed_to_bend`, yet after the call `CachedArmAngles[left]` holds a new
entry: the cache is updated past the failing step. -/
theorem reset_arm_cache_updated_on_failure_cex :
    (Transport.reset_arm envFailLater Arm.left true sHoldCont).1 =
      ActionStatus.failedToBend ∧
    sHoldCont.containerArmAngles Arm.left = none ∧
    (Transport.reset_arm envFailLater Arm.left true sHoldCont).2.containerArmAngles
      Arm.left = some [45] := by
  decide

/-- C2 (amended): when `reset_arm` takes the container orientation-alignment
branch and the motion step fails, the held sets are unchanged, the failure
status is returned, but `CachedArmAngles[arm]` is set to the freshly
measured angles regardless of the failure: the cache, unlike the held
state, is updated past the failing step. -/
theorem reset_arm_caches_despite_failure (env : MotionEnv) (arm : Arm)
    (rt : Bool) (s : BotState) (oid : Nat)
    (h0 : s.containerArmAngles arm = none)
    (h1 : (s.held arm).find? (fun o => s.containers.contains o) = some oid)
    (h2 : ¬ env.motion (s.clock + 1) = ActionStatus.success) :
    ¬ (Transport.reset_arm env arm rt s).1 = ActionStatus.success ∧
    (Transport.reset_arm env arm rt s).2.containerArmAngles arm =
      some (env.initialAngles (s.clock + 2)) ∧
    (Transport.reset_arm env arm rt s).2.held = s.held := by
  obtain ⟨ha, hb, hc⟩ := resetArm_firstContainer env arm rt s oid h0 h1
  refine ⟨?_, hb, hc⟩
  rw [ha]
  exact h2

/-- C5: after a first successful `reset_arm` on an arm with no cached
solution while that arm holds a container, every subsequent `reset_arm` on
the arm takes only the cached-angle replay path (the issued requests are
exactly the replay, the motion wait and the finalization, with the cache
untouched), and a subsequent `pick_up` on that arm issues no
orientation-alignment request either. -/
theorem reset_arm_cached_fast_path (env : MotionEnv) (s0 : BotState) (arm : Arm)
    (oid t : Nat) (rt : Bool)
    (h0 : s0.containerArmAngles arm = none)
    (h1 : (s0.held arm).find? (fun o => s0.containers.contains o) = some oid)
    (h2 : (Transport.reset_arm env arm true s0).1 = ActionStatus.success) :
    (Transport.reset_arm env arm rt
        (Transport.reset_arm env arm true s0).2).2.events =
      (Transport.reset_arm env arm true s0).2.events ++
        [Event.ikReplay arm, Event.armMotion, Event.endAction] ∧
    (Transport.reset_arm env arm rt
        (Transport.reset_arm env arm true s0).2).2.containerArmAngles =
      (Transport.reset_arm env arm true s0).2.containerArmAngles ∧
    ((Transport.pick_up env t arm
        (Transport.reset_arm env arm true s0).2).2.events.drop
      (Transport.reset_arm env arm true s0).2.events.length).all
      (fun e => !isOrient e) = true := by
  obtain ⟨_, hb, _⟩ := resetArm_firstContainer env arm true s0 oid h0 h1
  have hr := resetArm_replay env arm rt (Transport.reset_arm env arm true s0).2
    (env.initialAngles (s0.clock + 2)) hb
  refine ⟨hr.1, hr.2.1, ?_⟩
  exact pickUp_noOrient env t arm (Transport.reset_arm env arm true s0).2
    (by rw [hb]; rfl)

/-! ## Helper lemmas about the Scene Population Engine -/

/-- Each target-loop iteration appends exactly one id to `target_objects`
and never touches `containers`. -/
theorem placeTargets_spec (inp : PopInput) (rp : List (Nat × Nat)) :
    ∀ (n : Nat) (st st2 : PopState), placeTargets inp rp n st = Except.ok st2 →
      st2.targetObjects.length = st.targetObjects.length + n ∧
      st2.containers = st.containers := by
  intro n
  induction n with
  | zero =>
    intro st st2 h
    unfold placeTargets at h
    cases h
    exact ⟨rfl, rfl⟩
  | succ k ih =>
    intro st st2 h
    unfold placeTargets at h
    split at h
    · cases h
    · split at h
      · cases h
      · split at h
        · cases h
        · obtain ⟨hl, hcont⟩ := ih _ _ h
          constructor
          · rw [hl]
            simp
            omega
          · exact hcont

/-- Each container-loop iteration appends at most one id to `containers` and
never touches `target_objects`. -/
theorem placeContainers_spec (inp : PopInput) :
    ∀ (rs : List (Int × List (Nat × Nat))) (st st2 : PopState),
      placeContainers inp rs st = Except.ok st2 →
        st2.containers.length ≤ st.containers.length + rs.length ∧
        st2.targetObjects = st.targetObjects := by
  intro rs
  induction rs with
  | nil =>
    intro st st2 h
    unfold placeContainers at h
    cases h
    exact ⟨Nat.le_add_right _ _, rfl⟩
  | cons r rest ih =>
    intro st st2 h
    unfold placeContainers at h
    by_cases hskip : inp.rand st.counter % 4 = 0
    · rw [if_pos hskip] at h
      obtain ⟨hl, ht⟩ := ih _ _ h
      refine ⟨?_, ht⟩
      calc st2.containers.length ≤ st.containers.length + rest.length := hl
        _ ≤ st.containers.length + (rest.length + 1) := by omega
    · rw [if_neg hskip] at h
      split at h
      · cases h
      · split at h
        · cases h
        · obtain ⟨hl, ht⟩ := ih _ _ h
          refine ⟨?_, ht⟩
          simp at hl
          simp
          omega

/-! ## Claim theorems for the Scene Population Engine -/

/-- C8: every completed populate run records between 8 and 12 target-object
ids (one id per placement, with the count drawn from [8, 12] inclusive) and
at most one container id per room of the partition. -/
theorem populate_counts (inp : PopInput) (r : PopResult)
    (h : populate inp = Except.ok r) :
    8 ≤ r.targetObjects.length ∧ r.targetObjects.length ≤ 12 ∧
    r.containers.length ≤ (buildRooms inp.roomMap inp.occupancyMap).length := by
  unfold populate at h
  split at h
  · cases h
  · rename_i roomPositions c1 hchoice
    split at h
    · cases h
    · rename_i st1 htargets
      split at h
      · cases h
      · rename_i st2 hconts
        cases h
        obtain ⟨hl1, hc1⟩ := placeTargets_spec inp roomPositions _ _ _ htargets
        obtain ⟨hl2, ht2⟩ := placeContainers_spec inp _ _ _ hconts
        have hmod : inp.rand c1 % 5 < 5 := Nat.mod_lt _ (by norm_num)
        refine ⟨?_, ?_, ?_⟩
        · simp only [ht2, hl1]
          omega
        · simp only [ht2, hl1]
          simp at hl1 ⊢
          omega
        · simp only [hc1] at hl2
          simpa using hl2

/-- C1: on a scene whose partition contains a room with an empty free-cell
set (room 1 of `inpC1`), the population run does not complete: the container
loop reaches the empty free-cell list and `random.choice` over it raises an
`IndexError` fault instead of skipping the room. -/
theorem populate_empty_room_fault :
    buildRooms inpC1.roomMap inpC1.occupancyMap = [(0, [(0, 0)]), (1, [])] ∧
    popOk (populate inpC1) = false := by
  decide

/-- C9: the creation request of a placed target object carries rotation
x-component 0 but z-component equal to the object's world z-coordinate (7
here, not 0): the z field of the rotation is derived from the world
position, as in `rotation={"x": 0, "y": random.uniform(-179, 179), "z": z}`
in the source. -/
theorem target_rotation_z_is_world_z :
    ((popResult (populate inpC9)).targetPlacements.headD default).rotation.x = 0 ∧
    ((popResult (populate inpC9)).targetPlacements.headD default).rotation.z =
      ((popResult (populate inpC9)).targetPlacements.headD default).position.z ∧
    ¬ ((popResult (populate inpC9)).targetPlacements.headD default).rotation.z = 0 := by
  decide

/-! ## Witnesses -/

/-- Witness for C8 at a concrete completing input. -/
theorem populate_counts_witness :
    8 ≤ (popResult (populate inpC8)).targetObjects.length ∧
    (popResult (populate inpC8)).targetObjects.length ≤ 12 ∧
    (popResult (populate inpC8)).containers.length ≤
      (buildRooms inpC8.roomMap inpC8.occupancyMap).length :=
  populate_counts inpC8 (popResult (populate inpC8)) (by rfl)

/-- Witness for C4: a `cannot_reach` grasp leaves the status unchanged and
the held sets untouched at a concrete state. -/
theorem pick_up_grasp_failure_witness :
    5 ∉ sIdle.held Arm.left ∧
    ((Transport.pick_up envAllCannotReach 5 Arm.left sIdle).1 =
        envAllCannotReach.motion sIdle.clock ∧
      (Transport.pick_up envAllCannotReach 5 Arm.left sIdle).2.held = sIdle.held) :=
  ⟨by decide,
    pick_up_grasp_failure envAllCannotReach 5 Arm.left sIdle (by decide)
      (Or.inl (by decide))⟩

/-- Witness for C6: a successful concrete `drop` clears the arm's cache and
`drop_all` clears both arms. -/
theorem drop_success_invalidates_cache_witness :
    (Transport.drop envAllOk 10 Arm.left sHoldCont).1 = ActionStatus.success ∧
    ((Transport.drop envAllOk 10 Arm.left sHoldCont).2.containerArmAngles Arm.left = none ∧
      (Transport.drop_all envAllOk sHoldCont).2.containerArmAngles Arm.left = none ∧
      (Transport.drop_all envAllOk sHoldCont).2.containerArmAngles Arm.right = none) :=
  ⟨by decide, drop_success_invalidates_cache envAllOk sHoldCont 10 Arm.left (by decide)⟩

/-- Witness for C7: a concrete successful `pick_up` followed by the same
call again returns `success` and leaves the state unchanged. -/
theorem pick_up_idempotent_witness :
    (Transport.pick_up envAllOk 5 Arm.left sIdle).1 = ActionStatus.success ∧
    (5 ∈ (Transport.pick_up envAllOk 5 Arm.left sIdle).2.held Arm.left ∧
      Transport.pick_up envAllOk 5 Arm.left (Transport.pick_up envAllOk 5 Arm.left sIdle).2 =
        (ActionStatus.success, (Transport.pick_up envAllOk 5 Arm.left sIdle).2)) :=
  ⟨by decide, pick_up_idempotent envAllOk 5 Arm.left sIdle (by decide)⟩

/-- Witness for the amended C3 at a concrete state with a successful
grasp. -/
theorem pick_up_returns_reset_result_witness :
    5 ∉ sIdle.held Arm.left ∧
    envAllOk.motion sIdle.clock = ActionStatus.success ∧
    (Transport.pick_up envAllOk 5 Arm.left sIdle =
        Transport.reset_arm envAllOk Arm.left true (base_grasp envAllOk 5 Arm.left sIdle).2 ∧
      (base_grasp envAllOk 5 Arm.left sIdle).2.held Arm.left = sIdle.held Arm.left ++ [5] ∧
      5 ∈ (Transport.pick_up envAllOk 5 Arm.left sIdle).2.held Arm.left) :=
  ⟨by decide, by decide,
    pick_up_returns_reset_result envAllOk 5 Arm.left sIdle (by decide) (by decide)⟩

/-- Witness for the amended C2 at a concrete state where the orientation
motion fails. -/
theorem reset_arm_caches_despite_failure_witness :
    sHoldCont.containerArmAngles Arm.left = none ∧
    (sHoldCont.held Arm.left).find? (fun o => sHoldCont.containers.contains o) = some 10 ∧
    ¬ envFailLater.motion (sHoldCont.clock + 1) = ActionStatus.success ∧
    (¬ (Transport.reset_arm envFailLater Arm.left true sHoldCont).1 = ActionStatus.success ∧
      (Transport.reset_arm envFailLater Arm.left true sHoldCont).2.containerArmAngles Arm.left =
        some (envFailLater.initialAngles (sHoldCont.clock + 2)) ∧
      (Transport.reset_arm envFailLater Arm.left true sHoldCont).2.held = sHoldCont.held) :=
  ⟨by decide, by decide, by decide,
    reset_arm_caches_despite_failure envFailLater Arm.left true sHoldCont 10
      (by decide) (by decide) (by decide)⟩

/-- Witness for C5 at a concrete state: after the first successful container
reset the replay path is taken. -/
theorem reset_arm_cached_fast_path_witness :
    sHoldCont.containerArmAngles Arm.left = none ∧
    (sHoldCont.held Arm.left).find? (fun o => sHoldCont.containers.contains o) = some 10 ∧
    (Transport.reset_arm envAllOk Arm.left true sHoldCont).1 = ActionStatus.success ∧
    ((Transport.reset_arm envAllOk Arm.left true
        (Transport.reset_arm envAllOk Arm.left true sHoldCont).2).2.events =
      (Transport.reset_arm envAllOk Arm.left true sHoldCont).2.events ++
        [Event.ikReplay Arm.left, Event.armMotion, Event.endAction] ∧
      (Transport.reset_arm envAllOk Arm.left true
          (Transport.reset_arm envAllOk Arm.left true sHoldCont).2).2.containerArmAngles =
        (Transport.reset_arm envAllOk Arm.left true sHoldCont).2.containerArmAngles ∧
      ((Transport.pick_up envAllOk 11 Arm.left
          (Transport.reset_arm envAllOk Arm.left true sHoldCont).2).2.events.drop
        (Transport.reset_arm envAllOk Arm.left true sHoldCont).2.events.length).all
        (fun e => !isOrient e) = true) :=
  ⟨by decide, by decide, by decide,
    reset_arm_cached_fast_path envAllOk sHoldCont Arm.left 10 11 true
      (by decide) (by decide) (by decide)⟩
